import Mathlib

/-!
Verification of Pixel Defender (Project/modules/*.py).

Shallow embedding conventions:
* Python ints are `Int`, Python floats that hold pixel geometry are `Rat`
  (every float value reachable in this code is a small dyadic rational, so
  `Rat` arithmetic agrees exactly with the float arithmetic performed).
* Python strings handled by the score-file code are `List Char`; `str.strip`,
  `str.split(": ")` and `int(...)` are transcribed below as `pyStrip`,
  `pySplitOnColonSpace` and `pyInt`.
* pygame objects (surfaces, sounds, fonts, clocks) are pure side effects and
  are dropped; an entity's `placeholder` rect is kept as the
  `placeholder_x` / `placeholder_y` fields that the logic reads and writes.
* A score file is its list of lines (`readlines` content with the trailing
  newline stripped away by the `strip()` the reader performs anyway).
* `random.randint` / `random.choice` are oracle function parameters.
-/

/-- `SCREEN_W = 700` (game_logic.py line 18). -/
def SCREEN_W : Rat := 700

/-- `SCREEN_H = 900` (game_logic.py line 19). -/
def SCREEN_H : Rat := 900

/-- Bullet state (modules/bullet.py): geometry fields inherited from
`Entity`, plus `damage` and `is_fired`.  Bullets are built with image path
`'N/A'`, so `Entity.__init__` performs no sprite recentering on them. -/
structure Bullet where
  width : Rat
  height : Rat
  x_pos : Rat
  y_pos : Rat
  speed : Rat
  damage : Int
  is_fired : Bool
  deriving Repr, DecidableEq

/-- `Bullet.set_coordinates` (bullet.py lines 37-51): place the bullet and
mark it fired. -/
def Bullet.set_coordinates (b : Bullet) (x y : Rat) : Bullet :=
  { b with x_pos := x, y_pos := y, is_fired := true }

/-- `Bullet.move` (bullet.py lines 53-74): displace by `speed * direction`
on the y axis, then clear `is_fired` when the new position left the open
vertical band `(0, screen_h)`. -/
def Bullet.move (b : Bullet) (direction screen_w screen_h : Rat) : Bullet :=
  let y := b.y_pos + b.speed * direction
  { b with
    y_pos := y
    is_fired := if y ≤ 0 ∨ y ≥ screen_h then false else b.is_fired }

/-- `check_collisions` (game_logic.py lines 70-88): point-in-rectangle test
of the bullet position against the target rectangle, guarded by
`bullet.is_fired`. -/
def check_collisions (bullet : Bullet) (x_pos y_pos width height : Rat) : Bool :=
  if bullet.is_fired ∧ y_pos ≤ bullet.y_pos ∧ bullet.y_pos ≤ y_pos + height ∧
      x_pos ≤ bullet.x_pos ∧ bullet.x_pos ≤ x_pos + width then
    true
  else
    false

/-- `move_bullets` (game_logic.py lines 91-101): advance (and draw) the
bullet only when it is fired; the screen constants of the game are passed. -/
def move_bullets (bullet : Bullet) (direction : Rat) : Bullet :=
  if bullet.is_fired then bullet.move direction SCREEN_W SCREEN_H else bullet

/-- `reset_bullets` (game_logic.py lines 104-114): disarm the bullet and
park it at `(SCREEN_W, SCREEN_H)`, off the playfield. -/
def reset_bullets (bullet : Bullet) : Bullet :=
  { bullet with is_fired := false, x_pos := SCREEN_W, y_pos := SCREEN_H }

/-- Spaceship state (modules/spaceship.py): `Entity` geometry plus health,
kill flag, owned bullet, fire timing and the player flag.  The
`placeholder_x`/`placeholder_y` fields are the sprite rect coordinates that
`move` and `shoot` read and write. -/
structure Spaceship where
  width : Rat
  height : Rat
  x_pos : Rat
  y_pos : Rat
  speed : Rat
  placeholder_x : Rat
  placeholder_y : Rat
  health : Int
  is_killed : Bool
  bullet : Bullet
  shoot_delay : Int
  is_player : Bool
  shoot_timer : Int
  deriving Repr, DecidableEq

/-- `Spaceship.shoot` (spaceship.py lines 46-63): fire the owned bullet
from the muzzle point; a player fires from the sprite top edge, an enemy
from its bottom edge. -/
def Spaceship.shoot (s : Spaceship) : Spaceship :=
  let y := s.placeholder_y
  let y := if ¬ s.is_player then y + s.height else y
  { s with
    bullet := s.bullet.set_coordinates
      (s.placeholder_x + s.width / 2 - s.bullet.width / 2) y }

/-- `Spaceship.alien_shoot` (spaceship.py lines 65-81): advance the shot
timer; once it reached `shoot_delay` and the ship's vertical midpoint has
entered the screen, fire and reset the timer. -/
def Spaceship.alien_shoot (s : Spaceship) : Spaceship :=
  let s := { s with shoot_timer := s.shoot_timer + 1 }
  if s.shoot_timer ≥ s.shoot_delay ∧ s.y_pos + s.height / 2 ≥ 0 then
    { s.shoot with shoot_timer := 0 }
  else
    s

/-- `Spaceship.move` (spaceship.py lines 83-113): the player strafes
horizontally, clamped to `[0, screen_w - width]`; an enemy descends and is
flagged `is_killed` once its sprite bottom edge reaches the danger line
`screen_h - 120`. -/
def Spaceship.move (s : Spaceship) (direction screen_w screen_h : Rat) : Spaceship :=
  if s.is_player then
    let x := s.x_pos + s.speed * direction
    let x := if x ≤ 0 then 0
             else if x + s.width ≥ screen_w then screen_w - s.width
             else x
    { s with x_pos := x, placeholder_x := x }
  else
    let y := s.y_pos + s.speed * direction
    let s := { s with y_pos := y, placeholder_y := y }
    if s.placeholder_y + s.height ≥ screen_h - 120 then
      { s with is_killed := true }
    else
      s

/-- Heart state (modules/heart.py): `Entity` geometry plus the heal amount
and the claim flag. -/
structure Heart where
  width : Rat
  height : Rat
  x_pos : Rat
  y_pos : Rat
  speed : Rat
  placeholder_y : Rat
  restore_amount : Int
  is_claimed : Bool
  deriving Repr, DecidableEq

/-- `Heart.move` (heart.py lines 40-62): descend by `speed * direction`;
once the sprite rect is past the bottom of the screen the heart is marked
claimed so the loop replaces it. -/
def Heart.move (h : Heart) (direction screen_w screen_h : Rat) : Heart :=
  let y := h.y_pos + h.speed * direction
  let h := { h with y_pos := y, placeholder_y := y }
  if h.placeholder_y ≥ screen_h + h.height then
    { h with is_claimed := true }
  else
    h

/-- `get_heart` (game_logic.py lines 213-220): `Heart(80, 80, 350, -1, 1,
'raw/heart.png', 30)`.  `Entity.__init__` maps `y_pos = -1` to `-height =
-80`, and the sprite load recenters the coordinates to the rect top-left:
`x_pos := 350 - 80/2 = 310`, `y_pos := -80 - 80/2 = -120`, with the
placeholder rect at the same top-left. -/
def get_heart : Heart :=
  { width := 80, height := 80, x_pos := 310, y_pos := -120, speed := 1,
    placeholder_y := -120, restore_amount := 30, is_claimed := false }

/-- The player-health damage update of the game loop (game_logic.py lines
925-929): `health -= damage`, then clamp negative values to `0`. -/
def damageHealth (health damage : Int) : Int :=
  let health := health - damage
  if health < 0 then 0 else health

/-- The player-health heal update of the game loop (game_logic.py lines
962-968): `health += restore`, then clamp values above `100` down to
`100`. -/
def healHealth (health restore : Int) : Int :=
  let health := health + restore
  if health > 100 then 100 else health

/-- The score/level update of a bullet kill (game_logic.py lines 909-912):
`score += 1`, and `level += 1` when the new score is a multiple of 25. -/
def killScoreLevel (score level : Int) : Int × Int :=
  let score := score + 1
  (score, if score % 25 = 0 then level + 1 else level)

/-- The per-frame session state touched by the alien loop and the heart
branch of `game_loop` (game_logic.py lines 810-826). -/
structure FrameState where
  player : Spaceship
  aliens : List Spaceship
  heart : Heart
  score : Int
  goal : Int
  level : Int
  is_game_over : Bool
  game_over_text : String
  deriving Repr, DecidableEq

/-- The interaction block of one alien-loop iteration (game_logic.py lines
897-936), for a moved, surviving alien `a` against player `p`: enemy
autofire when its bullet is unarmed, enemy-bullet advance, player-bullet
vs alien resolution (kill, bullet park, score/level update) and
alien-bullet vs player resolution (damage with floor 0, bullet park).
Returns the updated alien, player, score and level. -/
def alien_interactions (p a : Spaceship) (score level : Int) :
    Spaceship × Spaceship × Int × Int :=
  let a := if ¬ a.bullet.is_fired then a.alien_shoot else a
  let a := { a with bullet := move_bullets a.bullet 1 }
  let hitAlien := check_collisions p.bullet a.x_pos a.y_pos a.width a.height
  let a := if hitAlien then { a with is_killed := true } else a
  let p := if hitAlien then { p with bullet := reset_bullets p.bullet } else p
  let scoreLevel := if hitAlien then killScoreLevel score level else (score, level)
  let hitPlayer := check_collisions a.bullet p.x_pos p.y_pos p.width p.height
  let p := if hitPlayer then
      { p with health := damageHealth p.health a.bullet.damage }
    else p
  let a := if hitPlayer then { a with bullet := reset_bullets a.bullet } else a
  (a, p, scoreLevel.1, scoreLevel.2)

/-- One iteration of the alien loop of `game_loop` (game_logic.py lines
877-949), for the alien at index `i`.  Returns the updated state together
with the `break` flag.  Draw and sound calls are dropped; Python mutates
the alien object held by the list, rendered here as `List.set` (or
`List.eraseIdx` for `alien_list.remove(alien)`, which removes exactly the
iterated element since aliens are distinct objects compared by identity). -/
def game_loop_alien_body (st : FrameState) (i : Nat) (h : i < st.aliens.length) :
    FrameState × Bool :=
  let alien := st.aliens.get ⟨i, h⟩
  if alien.is_killed then
    (st, false)
  else
    let alien := alien.move 1 SCREEN_W SCREEN_H
    if alien.is_killed then
      ({ st with
           aliens := st.aliens.set i alien,
           is_game_over := true,
           game_over_text := "ALIENS REACHED YOU",
           player := { st.player with health := 0 } }, true)
    else
      let res := alien_interactions st.player alien st.score st.level
      let aliens := if res.1.is_killed then st.aliens.eraseIdx i
        else st.aliens.set i res.1
      let st2 : FrameState := { st with
                    aliens := aliens, player := res.2.1,
                    score := res.2.2.1, level := res.2.2.2 }
      if st2.player.health ≤ 0 then
        ({ st2 with is_game_over := true }, true)
      else
        (st2, false)

/-- The alien loop of `game_loop` (game_logic.py lines 877-949) from index
`i` on, with structural fuel.  Python's `for alien in alien_list` advances
an internal index each step over the live list, so after an in-place
`remove` the loop continues at the next index of the shrunk list; the
recursion below does exactly that.  Each step advances `i` by one and never
lengthens the list, so `fuel = st.aliens.length - i` makes the fuel-out
case coincide with the loop's own exit guard. -/
def game_loop_alien_pass_go : Nat → FrameState → Nat → FrameState
  | 0, st, _ => st
  | fuel + 1, st, i =>
    if h : i < st.aliens.length then
      if (game_loop_alien_body st i h).2 then
        (game_loop_alien_body st i h).1
      else
        game_loop_alien_pass_go fuel (game_loop_alien_body st i h).1 (i + 1)
    else
      st

/-- The alien loop of `game_loop` (game_logic.py lines 877-949), started at
index `i` with exactly the fuel the iteration can consume. -/
def game_loop_alien_pass (st : FrameState) (i : Nat) : FrameState :=
  game_loop_alien_pass_go (st.aliens.length - i) st i

/-- The health-pickup branch of `game_loop` (game_logic.py lines 951-976):
once `score >= goal`, an unclaimed heart descends and a player-bullet hit
claims it, heals up to the cap, parks the bullet and raises the goal; a
claimed heart is replaced by a fresh one. -/
def game_loop_heart_step (st : FrameState) : FrameState :=
  if st.score ≥ st.goal then
    if ¬ st.heart.is_claimed then
      let heart := st.heart.move 1 SCREEN_W SCREEN_H
      if check_collisions st.player.bullet heart.x_pos heart.y_pos heart.width
          heart.height then
        let heart := { heart with is_claimed := true }
        let player := { st.player with
                          health := healHealth st.player.health heart.restore_amount,
                          bullet := reset_bullets st.player.bullet }
        { st with heart := heart, player := player, goal := st.goal + 10 }
      else
        { st with heart := heart }
    else
      { st with heart := get_heart }
  else
    st

/-- The spawn-state dictionary of `load_aliens` (game_logic.py line 186). -/
structure LocationList where
  spawn_location : Int
  previous_location : Int
  deriving Repr, DecidableEq

/-- `get_rand_spawn` (game_logic.py lines 136-171).  `randint` is the
`random.randint` oracle and `choice` the `random.choice` oracle applied to
the two-element list `[locations[0], locations[1]]` left after removing the
previous lane from `[1, 2, 3]`. -/
def get_rand_spawn (location_list : LocationList) (rand_num : Int)
    (randint : Int → Int → Int) (choice : Int → Int → Int) : LocationList :=
  if location_list.previous_location = 0 then
    let ll := { location_list with previous_location := rand_num }
    if rand_num = 1 then { ll with spawn_location := randint 75 175 }
    else if rand_num = 2 then { ll with spawn_location := randint 325 375 }
    else if rand_num = 3 then { ll with spawn_location := randint 525 625 }
    else ll
  else if 1 ≤ location_list.previous_location ∧ location_list.previous_location ≤ 3 then
    let locations := ([1, 2, 3] : List Int).erase location_list.previous_location
    get_rand_spawn { location_list with previous_location := 0 }
      (choice (locations.headD 0) ((locations.drop 1).headD 0)) randint choice
  else
    location_list
termination_by if location_list.previous_location = 0 then 0 else 1
decreasing_by simp_all

/-- Python `str.strip()` on a char-list string: drop whitespace from both
ends (game_logic.py line 317 and the `parts[1].strip()` of line 321). -/
def pyStrip (s : List Char) : List Char :=
  ((s.dropWhile Char.isWhitespace).reverse.dropWhile Char.isWhitespace).reverse

/-- Python `str.split(": ")` on a char-list string (game_logic.py line
318): left-to-right, non-overlapping scan for the two-character separator;
`acc` holds the current field reversed. -/
def pySplitOnColonSpace : List Char → List Char → List (List Char)
  | [], acc => [acc.reverse]
  | ':' :: ' ' :: rest, acc => acc.reverse :: pySplitOnColonSpace rest []
  | c :: rest, acc => pySplitOnColonSpace rest (c :: acc)

/-- The digit run accepted by Python `int(...)`: a nonempty all-digit
string, read in base 10. -/
def pyDigits (s : List Char) : Option Nat :=
  if s ≠ [] ∧ s.all Char.isDigit then
    some (s.foldl (fun n c => 10 * n + (c.toNat - 48)) 0)
  else
    none

/-- Python `int(str)` (game_logic.py line 321): strip whitespace, accept an
optional sign followed by digits, and raise `ValueError` (here `none`)
otherwise. -/
def pyInt (s : List Char) : Option Int :=
  match pyStrip s with
  | '-' :: rest => (pyDigits rest).map (fun n => -(n : Int))
  | '+' :: rest => (pyDigits rest).map (fun n => (n : Int))
  | t => (pyDigits t).map (fun n => (n : Int))

/-- Decimal digits of a natural number; the first argument is structural
fuel, always called with `fuel ≥ n ≥` the digit count. -/
def natToCharsGo : Nat → Nat → List Char
  | 0, _ => []
  | fuel + 1, n =>
    if n = 0 then []
    else natToCharsGo fuel (n / 10) ++ [Char.ofNat (48 + n % 10)]

/-- Python `str(n)` for a natural number. -/
def natToChars (n : Nat) : List Char :=
  if n = 0 then ['0'] else natToCharsGo n n

/-- Python `str(i)` for an int: optional minus sign and decimal digits
(the rendering `f"{score}"` of game_logic.py line 292 performs). -/
def intToChars (i : Int) : List Char :=
  if i < 0 then '-' :: natToChars i.natAbs else natToChars i.natAbs

/-- The line `write_scores` appends for a record (game_logic.py line 292):
`f"{name} - Score: {score}"` (the trailing newline is the line break of the
line-list file model). -/
def write_line (name : List Char) (score : Int) : List Char :=
  name ++ " - Score: ".toList ++ intToChars score

/-- `write_scores` (game_logic.py lines 275-297) on the line-list file
model: append the record line and report success.  The `open` failure path
returns the file unchanged with `False` and is not modeled. -/
def write_scores (name : List Char) (file : List (List Char)) (score : Int) :
    List (List Char) × Bool :=
  (file ++ [write_line name score], true)

/-- `read_scores` (game_logic.py lines 300-328) on the line-list file
model.  Each line is stripped and split on `": "`; a two-part line has its
second part parsed by `int(...)` and `(line, score)` appended to
`score_list`; other lines are skipped.  A `ValueError` from `int(...)`
escapes the loop to the `except` clause: the function stops, keeps the
entries already appended (the caller's list is mutated in place) and
returns `False`. -/
def read_scores (score_list : List (List Char × Int)) :
    List (List Char) → List (List Char × Int) × Bool
  | [] => (score_list, true)
  | line :: rest =>
    if (pySplitOnColonSpace (pyStrip line) []).length = 2 then
      match pyInt (pyStrip ((pySplitOnColonSpace (pyStrip line) []).getD 1 [])) with
      | some score => read_scores (score_list ++ [(pyStrip line, score)]) rest
      | none => (score_list, false)
    else
      read_scores score_list rest

/-- The sort of `top_scores_menu` (game_logic.py line 643):
`score_list.sort(key=lambda x: x[1], reverse=True)`, descending by the
stored score. -/
def sort_scores (l : List (List Char × Int)) : List (List Char × Int) :=
  l.mergeSort (fun a b => decide (b.2 ≤ a.2))

/-- A line on which the `int(...)` of `read_scores` cannot raise: either it
does not split on `": "` into exactly two parts, or its second part parses
as an integer. -/
def lineParses (line : List Char) : Bool :=
  let t := pyStrip line
  let parts := pySplitOnColonSpace t []
  if parts.length = 2 then (pyInt (pyStrip (parts.getD 1 []))).isSome else true

/-- Modelled from the spec: the entries the spec's reading rule produces —
"reading parses lines containing `\": \"`, splits into two parts, and
parses the second part as an integer score, silently skipping malformed
lines".  Used to compare `read_scores` against the spec's description. -/
def specParsedEntries (lines : List (List Char)) : List (List Char × Int) :=
  lines.filterMap (fun line =>
    let t := pyStrip line
    let parts := pySplitOnColonSpace t []
    if parts.length = 2 then
      (pyInt (pyStrip (parts.getD 1 []))).map (fun n => (t, n))
    else
      none)

/-- The bullet operations the game loop performs: `move_bullets` (the loop
never calls `Bullet.move` on an unfired bullet, game_logic.py lines
91-101), `reset_bullets` on a hit, and arming through `Spaceship.shoot`,
whose muzzle ordinate always lies strictly inside the vertical playfield
during play (the player fires from its fixed sprite top edge `y = 715`; an
enemy fires from its bottom edge, which is below `0` once half the ship is
on screen and above the danger line `SCREEN_H - 120` while the ship is
alive). -/
inductive BulletStep : Bullet → Bullet → Prop
  | move (b : Bullet) (direction : Rat) : BulletStep b (move_bullets b direction)
  | reset (b : Bullet) : BulletStep b (reset_bullets b)
  | fire (b : Bullet) (x y : Rat) (h0 : 0 < y) (hh : y < SCREEN_H) :
      BulletStep b (b.set_coordinates x y)

/-- Bullet states reachable during play: bullets are constructed unfired at
`y_pos = 0` (game_logic.py lines 197/203/209/811), outside the open
vertical playfield band, and then evolve by `BulletStep`. -/
inductive BulletReachable : Bullet → Prop
  | init (b : Bullet) (hf : b.is_fired = false)
      (hout : b.y_pos ≤ 0 ∨ b.y_pos ≥ SCREEN_H) : BulletReachable b
  | step (b c : Bullet) (hb : BulletReachable b) (hs : BulletStep b c) :
      BulletReachable c

/-- Sample data: the player ship of `game_loop` (game_logic.py lines
810-811) — `Spaceship(130, 130, 350, 780, 10, 'raw/player.png', 100,
Bullet(5, 20, 0, 0, 30, 'N/A', 1), 0, True)` after the sprite-load
recentering of `Entity.__init__` (`x := 350 - 65 = 285`,
`y := 780 - 65 = 715`). -/
def samplePlayer : Spaceship :=
  { width := 130, height := 130, x_pos := 285, y_pos := 715, speed := 10,
    placeholder_x := 285, placeholder_y := 715, health := 100,
    is_killed := false, bullet := ⟨5, 20, 0, 0, 30, 1, false⟩,
    shoot_delay := 0, is_player := true, shoot_timer := 0 }

/-- Sample data: a small alien (speed 3, damage 10) one step above the
danger line. -/
def sampleAlienNearLine : Spaceship :=
  { width := 100, height := 100, x_pos := 125, y_pos := 680, speed := 3,
    placeholder_x := 125, placeholder_y := 680, health := 50,
    is_killed := false, bullet := ⟨5, 20, 0, 0, 30, 10, false⟩,
    shoot_delay := 50, is_player := false, shoot_timer := 0 }

/-- Sample data: a medium alien (speed 3/2, damage 25) one step above the
danger line. -/
def sampleAlienMediumNearLine : Spaceship :=
  { width := 120, height := 120, x_pos := 325, y_pos := 659, speed := 3/2,
    placeholder_x := 325, placeholder_y := 659, health := 75,
    is_killed := false, bullet := ⟨5, 20, 0, 0, 30, 25, false⟩,
    shoot_delay := 75, is_player := false, shoot_timer := 0 }

/-- Sample data: a small alien far from the danger line, with an unarmed
bullet and a full shot timer. -/
def sampleAlienHigh : Spaceship :=
  { width := 100, height := 100, x_pos := 125, y_pos := 100, speed := 3,
    placeholder_x := 125, placeholder_y := 100, health := 50,
    is_killed := false, bullet := ⟨5, 20, 0, 0, 30, 10, false⟩,
    shoot_delay := 50, is_player := false, shoot_timer := 0 }

/-- Sample data: a frame with the alien about to cross the danger line. -/
def sampleStateReach : FrameState :=
  { player := samplePlayer, aliens := [sampleAlienNearLine],
    heart := get_heart, score := 0, goal := 10, level := 1,
    is_game_over := false, game_over_text := "YOU DIED" }

/-- Sample data: a frame with the medium alien about to cross the danger
line and a partly damaged player. -/
def sampleStateReachMedium : FrameState :=
  { player := { samplePlayer with health := 35 },
    aliens := [sampleAlienMediumNearLine],
    heart := get_heart, score := 3, goal := 10, level := 1,
    is_game_over := false, game_over_text := "YOU DIED" }

/-- Sample data: a quiet frame with no aliens. -/
def sampleStateEmpty : FrameState :=
  { player := samplePlayer, aliens := [], heart := get_heart,
    score := 0, goal := 10, level := 1,
    is_game_over := false, game_over_text := "YOU DIED" }

/-- Sample data: a frame with one alien far from the danger line. -/
def sampleStateHigh : FrameState :=
  { player := samplePlayer, aliens := [sampleAlienHigh], heart := get_heart,
    score := 0, goal := 10, level := 1,
    is_game_over := false, game_over_text := "YOU DIED" }

/-! ### Helper lemmas -/

/-- Reading a longer file continues from the entries accumulated by a
successful read of its prefix. -/
theorem read_scores_append (file more : List (List Char)) :
    ∀ (acc entries : List (List Char × Int)),
      read_scores acc file = (entries, true) →
      read_scores acc (file ++ more) = read_scores entries more := by
  induction file with
  | nil =>
    intro acc entries h
    simp only [read_scores] at h
    cases h
    simp
  | cons line rest ih =>
    intro acc entries h
    simp only [List.cons_append, read_scores] at h ⊢
    by_cases hp : (pySplitOnColonSpace (pyStrip line) []).length = 2
    · rw [if_pos hp] at h ⊢
      cases hint : pyInt (pyStrip ((pySplitOnColonSpace (pyStrip line) []).getD 1 [])) with
      | none =>
        rw [hint] at h
        simp at h
      | some n =>
        rw [hint] at h
        exact ih _ _ h
    · rw [if_neg hp] at h ⊢
      exact ih _ _ h

/-- When every two-part line of the file has an integer second part,
`read_scores` succeeds and appends exactly the entries the spec's reading
rule describes. -/
theorem read_scores_ok :
    ∀ (lines : List (List Char)), lines.all lineParses = true →
      ∀ acc, read_scores acc lines = (acc ++ specParsedEntries lines, true) := by
  intro lines
  induction lines with
  | nil =>
    intro _ acc
    simp [read_scores, specParsedEntries]
  | cons line rest ih =>
    intro hok acc
    simp only [List.all_cons, Bool.and_eq_true] at hok
    obtain ⟨hline, hrest⟩ := hok
    simp only [read_scores]
    by_cases hp : (pySplitOnColonSpace (pyStrip line) []).length = 2
    · rw [if_pos hp]
      simp only [lineParses] at hline
      rw [if_pos hp] at hline
      obtain ⟨n, hn⟩ := Option.isSome_iff_exists.mp hline
      rw [hn]
      show read_scores (acc ++ [(pyStrip line, n)]) rest = _
      rw [ih hrest]
      have hcons : specParsedEntries (line :: rest) =
          (pyStrip line, n) :: specParsedEntries rest := by
        simp only [specParsedEntries, List.filterMap_cons]
        rw [if_pos hp, hn]
        rfl
      rw [hcons]
      simp
    · rw [if_neg hp]
      rw [ih hrest]
      have hcons : specParsedEntries (line :: rest) = specParsedEntries rest := by
        simp only [specParsedEntries, List.filterMap_cons]
        rw [if_neg hp]
      rw [hcons]

/-! ### C1 -/

/-- C1 counterexample: the claim says a line whose second part after `": "`
is not an integer is skipped while well-formed lines are still appended and
the read returns `True`.  On the file `["Ada - Score: 42", "junk: abc",
"Bob - Score: 7"]` the `int("abc")` `ValueError` aborts the read:
`read_scores` returns `False` and the well-formed `Bob` line is never
parsed. -/
theorem C1_counterexample :
    (read_scores [] ["Ada - Score: 42".toList, "junk: abc".toList,
        "Bob - Score: 7".toList]).2 = false
    ∧ ("Bob - Score: 7".toList, (7 : Int)) ∉
        (read_scores [] ["Ada - Score: 42".toList, "junk: abc".toList,
          "Bob - Score: 7".toList]).1 := by
  decide

/-- C1 (amended): lines that do not split on `": "` into exactly two parts
are skipped individually and are not fatal; provided every two-part line
has an integer second part, `read_scores` parses and appends all well-formed
lines and returns `True`.  (A two-part line with a non-integer second part
instead aborts the read; see the counterexample and C10.) -/
theorem C1_read_scores_skips_malformed (lines : List (List Char))
    (hok : lines.all lineParses = true) (acc : List (List Char × Int)) :
    read_scores acc lines = (acc ++ specParsedEntries lines, true) :=
  read_scores_ok lines hok acc

/-- C1 witness: a file with a no-colon line and a three-part line among a
well-formed line: both malformed lines are skipped, the read succeeds. -/
theorem C1_read_scores_skips_malformed_witness :
    read_scores [] ["garbage".toList, "Ada - Score: 42".toList,
        "a: b: c".toList]
      = ([] ++ specParsedEntries ["garbage".toList, "Ada - Score: 42".toList,
          "a: b: c".toList], true) :=
  C1_read_scores_skips_malformed
    ["garbage".toList, "Ada - Score: 42".toList, "a: b: c".toList]
    (by decide) []

/-! ### C10 -/

/-- C10: `read_scores` is not atomic on error.  If the lines before `bad`
all parse (or are skipped) and `bad` splits into two parts whose second
part is not an integer, the read stops at `bad`, returns `False`, and the
caller's list keeps every entry appended before the failure; the remaining
lines are never processed. -/
theorem C10_read_scores_not_atomic (good : List (List Char)) (bad : List Char)
    (rest : List (List Char))
    (hgood : good.all lineParses = true)
    (hbad2 : (pySplitOnColonSpace (pyStrip bad) []).length = 2)
    (hbadint : pyInt (pyStrip ((pySplitOnColonSpace (pyStrip bad) []).getD 1 [])) = none) :
    read_scores [] (good ++ bad :: rest) = (specParsedEntries good, false) := by
  have h1 : read_scores [] good = (specParsedEntries good, true) := by
    simpa using read_scores_ok good hgood []
  rw [read_scores_append good (bad :: rest) [] (specParsedEntries good) h1]
  simp only [read_scores]
  rw [if_pos hbad2, hbadint]

/-- C10 witness: entries before the bad-integer line survive, the function
returns `False`, and the line after the failure is not parsed. -/
theorem C10_read_scores_not_atomic_witness :
    read_scores [] (["Eve - Score: 3".toList] ++ "oops: xyz".toList ::
        ["Bob - Score: 7".toList])
      = (specParsedEntries ["Eve - Score: 3".toList], false) :=
  C10_read_scores_not_atomic ["Eve - Score: 3".toList] "oops: xyz".toList
    ["Bob - Score: 7".toList] (by decide) (by decide) (by decide)

/-! ### C8 -/

/-- C8: round-trip.  For every file whose read succeeds with `entries`,
appending the record written by `write_scores` for name `"Ada"`, score `42`
(the line `"Ada - Score: 42"`) makes a subsequent `read_scores` yield
exactly the old entries plus `("Ada - Score: 42", 42)` with integer score
`42`, and sorting with the descending-by-score sort of `top_scores_menu`
places it in a descending-sorted list that contains it. -/
theorem C8_write_read_round_trip (file : List (List Char))
    (entries : List (List Char × Int))
    (h : read_scores [] file = (entries, true)) :
    read_scores [] (write_scores "Ada".toList file 42).1
        = (entries ++ [("Ada - Score: 42".toList, 42)], true)
    ∧ ("Ada - Score: 42".toList, (42 : Int)) ∈
        sort_scores (entries ++ [("Ada - Score: 42".toList, 42)])
    ∧ List.Pairwise (fun a b : List Char × Int => b.2 ≤ a.2)
        (sort_scores (entries ++ [("Ada - Score: 42".toList, 42)])) := by
  refine ⟨?_, ?_, ?_⟩
  · have hw : write_line "Ada".toList 42 = "Ada - Score: 42".toList := by decide
    show read_scores [] (file ++ [write_line "Ada".toList 42]) = _
    rw [read_scores_append file [write_line "Ada".toList 42] [] entries h, hw,
      read_scores_ok ["Ada - Score: 42".toList] (by decide) entries]
    congr 1
  · exact List.mem_mergeSort.mpr (by simp)
  · have hs := @List.sorted_mergeSort (List Char × Int)
      (fun a b => decide (b.2 ≤ a.2))
      (by
        intro a b c hab hbc
        simp only [decide_eq_true_eq] at hab hbc ⊢
        omega)
      (by
        intro a b
        simpa using Int.le_total b.2 a.2)
      (entries ++ [("Ada - Score: 42".toList, 42)])
    exact hs.imp (by intro a b hab; simpa using hab)

/-- C8 witness: the round trip at the concrete file
`["Bob - Score: 100"]`. -/
theorem C8_write_read_round_trip_witness :
    read_scores [] (write_scores "Ada".toList ["Bob - Score: 100".toList] 42).1
        = ([("Bob - Score: 100".toList, 100)] ++ [("Ada - Score: 42".toList, 42)], true)
    ∧ ("Ada - Score: 42".toList, (42 : Int)) ∈
        sort_scores ([("Bob - Score: 100".toList, 100)] ++ [("Ada - Score: 42".toList, 42)])
    ∧ List.Pairwise (fun a b : List Char × Int => b.2 ≤ a.2)
        (sort_scores ([("Bob - Score: 100".toList, 100)] ++ [("Ada - Score: 42".toList, 42)])) :=
  C8_write_read_round_trip ["Bob - Score: 100".toList]
    [("Bob - Score: 100".toList, 100)] (by decide)

/-! ### C5 -/

/-- C5: `check_collisions` returns `true` iff the bullet is fired and its
position lies (inclusively) inside the target rectangle, the bullet
treated as a point; a fired bullet at `(350, 400)` against the rectangle
`(340, 390, 100, 100)` collides, and the same bullet at `y = 300` does
not. -/
theorem C5_check_collisions_point_in_rect :
    (∀ (b : Bullet) (x y w h : Rat),
      check_collisions b x y w h = true ↔
        (b.is_fired = true ∧ y ≤ b.y_pos ∧ b.y_pos ≤ y + h ∧
          x ≤ b.x_pos ∧ b.x_pos ≤ x + w))
    ∧ check_collisions ⟨5, 20, 350, 400, 30, 1, true⟩ 340 390 100 100 = true
    ∧ check_collisions ⟨5, 20, 350, 300, 30, 1, true⟩ 340 390 100 100 = false := by
  refine ⟨?_, ?_, ?_⟩
  · intro b x y w h
    unfold check_collisions
    split
    case isTrue hc => simpa using hc
    case isFalse hc => simpa using hc
  · norm_num [check_collisions]
  · norm_num [check_collisions]

/-! ### C4 -/

/-- C4: `Bullet.move` adds `speed * direction` to `y` and clears `is_fired`
exactly when the resulting `y ≤ 0` or `y ≥ screen_h` (never arming an
unarmed bullet); `reset_bullets` clears `is_fired` and relocates the bullet
to `(SCREEN_W, SCREEN_H)`, on the far bound; and in every state reachable
through the game's bullet operations a bullet is fired iff it lies strictly
inside the open band `(0, SCREEN_H)` — in particular a fired bullet always
lies strictly inside it. -/
theorem C4_fired_iff_inside_playfield :
    (∀ (b : Bullet) (direction screen_w screen_h : Rat),
      (b.move direction screen_w screen_h).y_pos = b.y_pos + b.speed * direction
      ∧ ((b.move direction screen_w screen_h).is_fired = true ↔
          (b.is_fired = true ∧
            ¬(b.y_pos + b.speed * direction ≤ 0 ∨
              b.y_pos + b.speed * direction ≥ screen_h))))
    ∧ (∀ b : Bullet, (reset_bullets b).is_fired = false
        ∧ (reset_bullets b).x_pos = SCREEN_W ∧ (reset_bullets b).y_pos = SCREEN_H)
    ∧ (∀ b : Bullet, BulletReachable b →
        (b.is_fired = true ↔ 0 < b.y_pos ∧ b.y_pos < SCREEN_H)) := by
  refine ⟨?_, ?_, ?_⟩
  · intro b direction screen_w screen_h
    refine ⟨rfl, ?_⟩
    simp only [Bullet.move]
    split
    case isTrue hc => simp [hc]
    case isFalse hc => simp [hc]
  · intro b
    exact ⟨rfl, rfl, rfl⟩
  · intro b hreach
    induction hreach with
    | init b hf hout =>
      simp only [hf, Bool.false_eq_true, false_iff]
      rintro ⟨h1, h2⟩
      rcases hout with h | h
      · exact absurd (lt_of_lt_of_le h1 h) (lt_irrefl 0)
      · exact absurd (lt_of_lt_of_le h2 h) (lt_irrefl _)
    | step b c hb hs ih =>
      cases hs with
      | move direction =>
        unfold move_bullets
        split
        case isTrue hf =>
          simp only [Bullet.move]
          split
          case isTrue hc =>
            simp only [Bool.false_eq_true, false_iff]
            rintro ⟨h1, h2⟩
            rcases hc with h | h
            · exact absurd (lt_of_lt_of_le h1 h) (lt_irrefl 0)
            · exact absurd (lt_of_lt_of_le h2 h) (lt_irrefl _)
          case isFalse hc =>
            push_neg at hc
            simpa [hf] using hc
        case isFalse hf => exact ih
      | reset =>
        simp only [reset_bullets, Bool.false_eq_true, false_iff]
        rintro ⟨-, h2⟩
        exact absurd h2 (lt_irrefl _)
      | fire x y h0 hh =>
        simp [Bullet.set_coordinates, h0, hh]

/-- C4 witness: an initially unfired bullet at `y = 0` armed by a shot at
`(350, 400)` is fired and lies strictly inside the playfield band. -/
theorem C4_fired_iff_inside_playfield_witness :
    ((Bullet.set_coordinates ⟨5, 20, 0, 0, 30, 1, false⟩ 350 400).is_fired = true ↔
      0 < (Bullet.set_coordinates ⟨5, 20, 0, 0, 30, 1, false⟩ 350 400).y_pos ∧
        (Bullet.set_coordinates ⟨5, 20, 0, 0, 30, 1, false⟩ 350 400).y_pos < SCREEN_H) :=
  C4_fired_iff_inside_playfield.2.2 _
    (BulletReachable.step _ _
      (BulletReachable.init ⟨5, 20, 0, 0, 30, 1, false⟩ rfl (Or.inl (by norm_num)))
      (BulletStep.fire _ 350 400 (by norm_num) (by norm_num [SCREEN_H])))

/-! ### Game-loop helper lemmas -/

/-- `Bullet.move` never changes the damage. -/
theorem Bullet.damage_move (b : Bullet) (d w h : Rat) : (b.move d w h).damage = b.damage := rfl

/-- `move_bullets` never changes the damage. -/
theorem move_bullets_damage (b : Bullet) (d : Rat) : (move_bullets b d).damage = b.damage := by
  unfold move_bullets
  split <;> rfl

/-- `reset_bullets` never changes the damage. -/
theorem reset_bullets_damage (b : Bullet) : (reset_bullets b).damage = b.damage := rfl

/-- `Spaceship.move` never touches the owned bullet. -/
theorem Spaceship.move_bullet (s : Spaceship) (d w h : Rat) : (s.move d w h).bullet = s.bullet := by
  simp only [Spaceship.move]
  split
  · rfl
  · split <;> rfl

/-- `Spaceship.alien_shoot` never changes the owned bullet's damage. -/
theorem Spaceship.alien_shoot_bullet_damage (s : Spaceship) :
    s.alien_shoot.bullet.damage = s.bullet.damage := by
  simp only [Spaceship.alien_shoot, Spaceship.shoot]
  split <;> rfl

/-- `Heart.move` never changes the heal amount. -/
theorem Heart.move_restore_amount (h : Heart) (d w s : Rat) :
    (h.move d w s).restore_amount = h.restore_amount := by
  simp only [Heart.move]
  split <;> rfl

/-- `damageHealth` never goes below `0`. -/
theorem damageHealth_nonneg (h d : Int) : 0 ≤ damageHealth h d := by
  unfold damageHealth
  dsimp only
  split <;> omega

/-- With nonnegative damage, `damageHealth` never exceeds the start. -/
theorem damageHealth_le (h d : Int) (hh : h ≤ 100) (hd : 0 ≤ d) : damageHealth h d ≤ 100 := by
  unfold damageHealth
  dsimp only
  split <;> omega

/-- `healHealth` never exceeds the `100` cap. -/
theorem healHealth_le (h r : Int) : healHealth h r ≤ 100 := by
  unfold healHealth
  dsimp only
  split <;> omega

/-- With nonnegative restore and start, `healHealth` stays nonnegative. -/
theorem healHealth_nonneg (h r : Int) (hh : 0 ≤ h) (hr : 0 ≤ r) : 0 ≤ healHealth h r := by
  unfold healHealth
  dsimp only
  split <;> omega

/-- Computation of the alien-loop break on the reach-player path: when the
alien at index `i` is alive and its move flags it killed, the pass stops at
that alien with the game-over transition, leaving every other alien — and
every other player field — untouched. -/
theorem alien_pass_reach_break (st : FrameState) (i : Nat) (h : i < st.aliens.length)
    (halive : (st.aliens.get ⟨i, h⟩).is_killed = false)
    (hreach : ((st.aliens.get ⟨i, h⟩).move 1 SCREEN_W SCREEN_H).is_killed = true) :
    game_loop_alien_pass st i =
      { st with
          aliens := st.aliens.set i ((st.aliens.get ⟨i, h⟩).move 1 SCREEN_W SCREEN_H),
          is_game_over := true,
          game_over_text := "ALIENS REACHED YOU",
          player := { st.player with health := 0 } } := by
  unfold game_loop_alien_pass
  have hfuel : st.aliens.length - i = (st.aliens.length - i - 1) + 1 := by omega
  rw [hfuel]
  simp only [game_loop_alien_pass_go]
  rw [dif_pos h]
  have hbody : game_loop_alien_body st i h =
      ({ st with
          aliens := st.aliens.set i ((st.aliens.get ⟨i, h⟩).move 1 SCREEN_W SCREEN_H),
          is_game_over := true,
          game_over_text := "ALIENS REACHED YOU",
          player := { st.player with health := 0 } }, true) := by
    unfold game_loop_alien_body
    rw [if_neg (by simpa using halive), if_pos (by simpa using hreach)]
  rw [hbody]
  simp

/-! ### C7 -/

/-- C7: for every alive enemy ship, the enemy branch of `Spaceship.move`
sets `is_killed` exactly when the moved ship's bottom edge reaches or
crosses the danger line `screen_h - 120`; and when the alien at index `i`
of the frame triggers this, the alien pass stops there with the game-over
transition — reason `"ALIENS REACHED YOU"`, player health overwritten to 0
regardless of its current value — updating only that alien and processing
none of the remaining ones. -/
theorem C7_aliens_reached_game_over :
    (∀ (s : Spaceship) (direction screen_w screen_h : Rat),
      s.is_player = false → s.is_killed = false →
      ((s.move direction screen_w screen_h).is_killed = true ↔
        s.y_pos + s.speed * direction + s.height ≥ screen_h - 120))
    ∧ (∀ (st : FrameState) (i : Nat) (h : i < st.aliens.length),
        (st.aliens.get ⟨i, h⟩).is_killed = false →
        ((st.aliens.get ⟨i, h⟩).move 1 SCREEN_W SCREEN_H).is_killed = true →
        game_loop_alien_pass st i =
          { st with
              aliens := st.aliens.set i
                ((st.aliens.get ⟨i, h⟩).move 1 SCREEN_W SCREEN_H),
              is_game_over := true,
              game_over_text := "ALIENS REACHED YOU",
              player := { st.player with health := 0 } }) := by
  constructor
  · intro s direction screen_w screen_h hp hk
    by_cases hcond : screen_h - 120 ≤ s.y_pos + s.speed * direction + s.height
    · simp [Spaceship.move, hp, hcond, ge_iff_le]
    · simp [Spaceship.move, hp, hk, hcond, ge_iff_le]
  · intro st i h halive hreach
    exact alien_pass_reach_break st i h halive hreach

/-- C7 witness: the sample alien one step above the danger line triggers
the transition even though the player has full health. -/
theorem C7_aliens_reached_game_over_witness :
    (game_loop_alien_pass sampleStateReach 0).is_game_over = true
    ∧ (game_loop_alien_pass sampleStateReach 0).game_over_text = "ALIENS REACHED YOU"
    ∧ (game_loop_alien_pass sampleStateReach 0).player.health = 0
    ∧ sampleStateReach.player.health = 100 := by
  have h := C7_aliens_reached_game_over.2 sampleStateReach 0
    (by simp [sampleStateReach]) rfl
    (by
      simp [sampleStateReach, sampleAlienNearLine, Spaceship.move, SCREEN_W, SCREEN_H]
      norm_num)
  rw [h]
  exact ⟨rfl, rfl, rfl, rfl⟩

/-! ### C9 -/

/-- C9: when an enemy crosses the danger line, the game-over transition of
the alien loop overwrites the player's health to `0` even though the player
was never hit, and modifies no other field of the player. -/
theorem C9_reach_transition_zeroes_health (st : FrameState) (i : Nat)
    (h : i < st.aliens.length)
    (halive : (st.aliens.get ⟨i, h⟩).is_killed = false)
    (hreach : ((st.aliens.get ⟨i, h⟩).move 1 SCREEN_W SCREEN_H).is_killed = true) :
    (game_loop_alien_pass st i).player = { st.player with health := 0 } := by
  rw [alien_pass_reach_break st i h halive hreach]

/-- C9 witness: the medium alien crossing the line zeroes the sample
player's health (35 before the frame) and leaves every other player field
unchanged. -/
theorem C9_reach_transition_zeroes_health_witness :
    (game_loop_alien_pass sampleStateReachMedium 0).player
      = { sampleStateReachMedium.player with health := 0 } :=
  C9_reach_transition_zeroes_health sampleStateReachMedium 0
    (by simp [sampleStateReachMedium]) rfl
    (by
      simp [sampleStateReachMedium, sampleAlienMediumNearLine, Spaceship.move,
        SCREEN_W, SCREEN_H]
      norm_num)

/-! ### C3 -/

/-- On a state with `previous_location = 0`, `get_rand_spawn` records the
hint as the new `previous_location` and, for hints 1-3, draws
`spawn_location` from that lane's `random.randint` range. -/
theorem get_rand_spawn_assign (ll : LocationList) (c : Int)
    (randint choice : Int → Int → Int) (h0 : ll.previous_location = 0)
    (hrand : ∀ lo hi : Int, lo ≤ hi → lo ≤ randint lo hi ∧ randint lo hi ≤ hi) :
    (get_rand_spawn ll c randint choice).previous_location = c
    ∧ (c = 1 → 75 ≤ (get_rand_spawn ll c randint choice).spawn_location
        ∧ (get_rand_spawn ll c randint choice).spawn_location ≤ 175)
    ∧ (c = 2 → 325 ≤ (get_rand_spawn ll c randint choice).spawn_location
        ∧ (get_rand_spawn ll c randint choice).spawn_location ≤ 375)
    ∧ (c = 3 → 525 ≤ (get_rand_spawn ll c randint choice).spawn_location
        ∧ (get_rand_spawn ll c randint choice).spawn_location ≤ 625) := by
  rw [get_rand_spawn, if_pos h0]
  by_cases h1 : c = 1
  · subst h1
    norm_num
    exact hrand 75 175 (by norm_num)
  · by_cases h2 : c = 2
    · subst h2
      norm_num
      exact hrand 325 375 (by norm_num)
    · by_cases h3 : c = 3
      · subst h3
        norm_num
        exact hrand 525 625 (by norm_num)
      · simp [h1, h2, h3]

/-- C3: for every spawn state with `previous_location` in `{1, 2, 3}` and
any hint argument, `get_rand_spawn` assigns a lane different from
`previous_location`, drawn from the remaining two, and sets
`spawn_location` inside that lane's fixed range (lane 1 in `[75, 175]`,
lane 2 in `[325, 375]`, lane 3 in `[525, 625]`); the assigned lane is left
in `previous_location`, so a consecutive call never reuses it. -/
theorem C3_get_rand_spawn_alternates (location_list : LocationList) (rand_num : Int)
    (randint choice : Int → Int → Int)
    (hrand : ∀ lo hi : Int, lo ≤ hi → lo ≤ randint lo hi ∧ randint lo hi ≤ hi)
    (hchoice : ∀ a b : Int, choice a b = a ∨ choice a b = b)
    (hprev : location_list.previous_location = 1 ∨ location_list.previous_location = 2
      ∨ location_list.previous_location = 3) :
    (get_rand_spawn location_list rand_num randint choice).previous_location
        ≠ location_list.previous_location
    ∧ ((get_rand_spawn location_list rand_num randint choice).previous_location = 1
        ∨ (get_rand_spawn location_list rand_num randint choice).previous_location = 2
        ∨ (get_rand_spawn location_list rand_num randint choice).previous_location = 3)
    ∧ ((get_rand_spawn location_list rand_num randint choice).previous_location = 1 →
        75 ≤ (get_rand_spawn location_list rand_num randint choice).spawn_location
        ∧ (get_rand_spawn location_list rand_num randint choice).spawn_location ≤ 175)
    ∧ ((get_rand_spawn location_list rand_num randint choice).previous_location = 2 →
        325 ≤ (get_rand_spawn location_list rand_num randint choice).spawn_location
        ∧ (get_rand_spawn location_list rand_num randint choice).spawn_location ≤ 375)
    ∧ ((get_rand_spawn location_list rand_num randint choice).previous_location = 3 →
        525 ≤ (get_rand_spawn location_list rand_num randint choice).spawn_location
        ∧ (get_rand_spawn location_list rand_num randint choice).spawn_location ≤ 625) := by
  rcases hprev with h | h | h
  · have hne : ¬ (location_list.previous_location = 0) := by rw [h]; norm_num
    have hin : 1 ≤ location_list.previous_location ∧ location_list.previous_location ≤ 3 := by
      rw [h]; norm_num
    rw [get_rand_spawn, if_neg hne, if_pos hin, h]
    dsimp only
    have hab : ((([1, 2, 3] : List Int).erase 1).headD 0) = 2 := by decide
    have hab2 : (((([1, 2, 3] : List Int).erase 1).drop 1).headD 0) = 3 := by decide
    rw [hab, hab2]
    obtain ⟨hset, hr1, hr2, hr3⟩ := get_rand_spawn_assign
      { location_list with previous_location := 0 } (choice 2 3) randint choice rfl hrand
    rcases hchoice 2 3 with hc | hc
    all_goals rw [hc] at hset hr1 hr2 hr3 ⊢
    · refine ⟨by rw [hset]; norm_num, by rw [hset]; norm_num, ?_, ?_, ?_⟩
      · intro hx; rw [hset] at hx; norm_num at hx
      · intro _; exact hr2 rfl
      · intro hx; rw [hset] at hx; norm_num at hx
    · refine ⟨by rw [hset]; norm_num, by rw [hset]; norm_num, ?_, ?_, ?_⟩
      · intro hx; rw [hset] at hx; norm_num at hx
      · intro hx; rw [hset] at hx; norm_num at hx
      · intro _; exact hr3 rfl
  · have hne : ¬ (location_list.previous_location = 0) := by rw [h]; norm_num
    have hin : 1 ≤ location_list.previous_location ∧ location_list.previous_location ≤ 3 := by
      rw [h]; norm_num
    rw [get_rand_spawn, if_neg hne, if_pos hin, h]
    dsimp only
    have hab : ((([1, 2, 3] : List Int).erase 2).headD 0) = 1 := by decide
    have hab2 : (((([1, 2, 3] : List Int).erase 2).drop 1).headD 0) = 3 := by decide
    rw [hab, hab2]
    obtain ⟨hset, hr1, hr2, hr3⟩ := get_rand_spawn_assign
      { location_list with previous_location := 0 } (choice 1 3) randint choice rfl hrand
    rcases hchoice 1 3 with hc | hc
    all_goals rw [hc] at hset hr1 hr2 hr3 ⊢
    · refine ⟨by rw [hset]; norm_num, by rw [hset]; norm_num, ?_, ?_, ?_⟩
      · intro _; exact hr1 rfl
      · intro hx; rw [hset] at hx; norm_num at hx
      · intro hx; rw [hset] at hx; norm_num at hx
    · refine ⟨by rw [hset]; norm_num, by rw [hset]; norm_num, ?_, ?_, ?_⟩
      · intro hx; rw [hset] at hx; norm_num at hx
      · intro hx; rw [hset] at hx; norm_num at hx
      · intro _; exact hr3 rfl
  · have hne : ¬ (location_list.previous_location = 0) := by rw [h]; norm_num
    have hin : 1 ≤ location_list.previous_location ∧ location_list.previous_location ≤ 3 := by
      rw [h]; norm_num
    rw [get_rand_spawn, if_neg hne, if_pos hin, h]
    dsimp only
    have hab : ((([1, 2, 3] : List Int).erase 3).headD 0) = 1 := by decide
    have hab2 : (((([1, 2, 3] : List Int).erase 3).drop 1).headD 0) = 2 := by decide
    rw [hab, hab2]
    obtain ⟨hset, hr1, hr2, hr3⟩ := get_rand_spawn_assign
      { location_list with previous_location := 0 } (choice 1 2) randint choice rfl hrand
    rcases hchoice 1 2 with hc | hc
    all_goals rw [hc] at hset hr1 hr2 hr3 ⊢
    · refine ⟨by rw [hset]; norm_num, by rw [hset]; norm_num, ?_, ?_, ?_⟩
      · intro _; exact hr1 rfl
      · intro hx; rw [hset] at hx; norm_num at hx
      · intro hx; rw [hset] at hx; norm_num at hx
    · refine ⟨by rw [hset]; norm_num, by rw [hset]; norm_num, ?_, ?_, ?_⟩
      · intro hx; rw [hset] at hx; norm_num at hx
      · intro _; exact hr2 rfl
      · intro hx; rw [hset] at hx; norm_num at hx

/-- C3 witness: a state whose previous lane is 2, with the left-end
`randint` oracle and the first-element `choice` oracle. -/
theorem C3_get_rand_spawn_alternates_witness :
    (get_rand_spawn ⟨0, 2⟩ 2 (fun lo _ => lo) (fun a _ => a)).previous_location ≠ (2 : Int)
    ∧ ((get_rand_spawn ⟨0, 2⟩ 2 (fun lo _ => lo) (fun a _ => a)).previous_location = 1
        ∨ (get_rand_spawn ⟨0, 2⟩ 2 (fun lo _ => lo) (fun a _ => a)).previous_location = 2
        ∨ (get_rand_spawn ⟨0, 2⟩ 2 (fun lo _ => lo) (fun a _ => a)).previous_location = 3)
    ∧ ((get_rand_spawn ⟨0, 2⟩ 2 (fun lo _ => lo) (fun a _ => a)).previous_location = 1 →
        75 ≤ (get_rand_spawn ⟨0, 2⟩ 2 (fun lo _ => lo) (fun a _ => a)).spawn_location
        ∧ (get_rand_spawn ⟨0, 2⟩ 2 (fun lo _ => lo) (fun a _ => a)).spawn_location ≤ 175)
    ∧ ((get_rand_spawn ⟨0, 2⟩ 2 (fun lo _ => lo) (fun a _ => a)).previous_location = 2 →
        325 ≤ (get_rand_spawn ⟨0, 2⟩ 2 (fun lo _ => lo) (fun a _ => a)).spawn_location
        ∧ (get_rand_spawn ⟨0, 2⟩ 2 (fun lo _ => lo) (fun a _ => a)).spawn_location ≤ 375)
    ∧ ((get_rand_spawn ⟨0, 2⟩ 2 (fun lo _ => lo) (fun a _ => a)).previous_location = 3 →
        525 ≤ (get_rand_spawn ⟨0, 2⟩ 2 (fun lo _ => lo) (fun a _ => a)).spawn_location
        ∧ (get_rand_spawn ⟨0, 2⟩ 2 (fun lo _ => lo) (fun a _ => a)).spawn_location ≤ 625) :=
  C3_get_rand_spawn_alternates ⟨0, 2⟩ 2 (fun lo _ => lo) (fun a _ => a)
    (fun lo _ hle => ⟨le_refl lo, hle⟩) (fun a _ => Or.inl rfl)
    (Or.inr (Or.inl rfl))

/-! ### C2 and C6: invariants of the alien pass and heart step -/

/-- The interaction block never changes the alien bullet's damage. -/
theorem alien_interactions_damage (p a : Spaceship) (s l : Int) :
    (alien_interactions p a s l).1.bullet.damage = a.bullet.damage := by
  unfold alien_interactions
  dsimp only
  split_ifs <;>
    simp [move_bullets_damage, reset_bullets_damage, Spaceship.alien_shoot_bullet_damage]

/-- The interaction block either keeps the player's health or applies the
clamped damage update with the alien bullet's damage. -/
theorem alien_interactions_health (p a : Spaceship) (s l : Int) :
    (alien_interactions p a s l).2.1.health = p.health ∨
    (alien_interactions p a s l).2.1.health = damageHealth p.health a.bullet.damage := by
  unfold alien_interactions
  dsimp only
  split_ifs <;>
    simp [move_bullets_damage, reset_bullets_damage, Spaceship.alien_shoot_bullet_damage]

/-- The interaction block either keeps score and level or applies exactly
the kill update. -/
theorem alien_interactions_score_level (p a : Spaceship) (s l : Int) :
    ((alien_interactions p a s l).2.2.1 = s ∧ (alien_interactions p a s l).2.2.2 = l)
    ∨ ((alien_interactions p a s l).2.2.1 = (killScoreLevel s l).1
        ∧ (alien_interactions p a s l).2.2.2 = (killScoreLevel s l).2) := by
  unfold alien_interactions
  dsimp only
  split_ifs <;> simp

/-- One alien-loop iteration keeps every alien bullet's damage nonnegative
and the player's health inside `[0, 100]`. -/
theorem alien_body_invariant (st : FrameState) (i : Nat) (h : i < st.aliens.length)
    (hd : ∀ a ∈ st.aliens, 0 ≤ a.bullet.damage)
    (h0 : 0 ≤ st.player.health) (h100 : st.player.health ≤ 100) :
    (∀ a ∈ (game_loop_alien_body st i h).1.aliens, 0 ≤ a.bullet.damage)
    ∧ 0 ≤ (game_loop_alien_body st i h).1.player.health
    ∧ (game_loop_alien_body st i h).1.player.health ≤ 100 := by
  have hdi := hd _ (List.get_mem st.aliens i h)
  by_cases c1 : (st.aliens.get ⟨i, h⟩).is_killed = true
  · have hb : game_loop_alien_body st i h = (st, false) := by
      unfold game_loop_alien_body
      rw [if_pos c1]
    rw [hb]
    exact ⟨hd, h0, h100⟩
  · by_cases c2 : ((st.aliens.get ⟨i, h⟩).move 1 SCREEN_W SCREEN_H).is_killed = true
    · have hb : game_loop_alien_body st i h =
          ({ st with
              aliens := st.aliens.set i ((st.aliens.get ⟨i, h⟩).move 1 SCREEN_W SCREEN_H),
              is_game_over := true,
              game_over_text := "ALIENS REACHED YOU",
              player := { st.player with health := 0 } }, true) := by
        unfold game_loop_alien_body
        rw [if_neg c1, if_pos c2]
      rw [hb]
      refine ⟨?_, le_refl 0, by norm_num⟩
      intro a ha
      rcases List.mem_or_eq_of_mem_set ha with h' | h'
      · exact hd a h'
      · subst h'
        rw [Spaceship.move_bullet]
        exact hdi
    · have hb : game_loop_alien_body st i h =
          (let res := alien_interactions st.player
              ((st.aliens.get ⟨i, h⟩).move 1 SCREEN_W SCREEN_H) st.score st.level
           let aliens := if res.1.is_killed then st.aliens.eraseIdx i
             else st.aliens.set i res.1
           let st2 : FrameState := { st with
                         aliens := aliens, player := res.2.1,
                         score := res.2.2.1, level := res.2.2.2 }
           if st2.player.health ≤ 0 then
             ({ st2 with is_game_over := true }, true)
           else
             (st2, false)) := by
        unfold game_loop_alien_body
        rw [if_neg c1, if_neg c2]
      rw [hb]
      dsimp only
      generalize hres : alien_interactions st.player
        ((st.aliens.get ⟨i, h⟩).move 1 SCREEN_W SCREEN_H) st.score st.level = res
      have hdam : res.1.bullet.damage = (st.aliens.get ⟨i, h⟩).bullet.damage := by
        rw [← hres, alien_interactions_damage, Spaceship.move_bullet]
      have hheal : res.2.1.health = st.player.health ∨
          res.2.1.health = damageHealth st.player.health
            ((st.aliens.get ⟨i, h⟩).move 1 SCREEN_W SCREEN_H).bullet.damage := by
        rw [← hres]
        exact alien_interactions_health _ _ _ _
      have hh0 : 0 ≤ res.2.1.health := by
        rcases hheal with h' | h'
        · rw [h']; exact h0
        · rw [h']; exact damageHealth_nonneg _ _
      have hh100 : res.2.1.health ≤ 100 := by
        rcases hheal with h' | h'
        · rw [h']; exact h100
        · rw [h']
          refine damageHealth_le _ _ h100 ?_
          rw [Spaceship.move_bullet]
          exact hdi
      refine ⟨?_, ?_, ?_⟩
      · intro a ha
        split at ha
        all_goals
          by_cases hk : res.1.is_killed = true
        · simp only [hk, if_true] at ha
          exact hd a (List.eraseIdx_subset _ _ ha)
        · simp only [hk, if_false] at ha
          rcases List.mem_or_eq_of_mem_set ha with h' | h'
          · exact hd a h'
          · subst h'
            rw [hdam]
            exact hdi
        · simp only [hk, if_true] at ha
          exact hd a (List.eraseIdx_subset _ _ ha)
        · simp only [hk, if_false] at ha
          rcases List.mem_or_eq_of_mem_set ha with h' | h'
          · exact hd a h'
          · subst h'
            rw [hdam]
            exact hdi
      · split <;> exact hh0
      · split <;> exact hh100

/-- The whole alien pass keeps the player's health inside `[0, 100]`. -/
theorem alien_pass_go_invariant :
    ∀ (fuel : Nat) (st : FrameState) (i : Nat),
      (∀ a ∈ st.aliens, 0 ≤ a.bullet.damage) →
      0 ≤ st.player.health → st.player.health ≤ 100 →
      0 ≤ (game_loop_alien_pass_go fuel st i).player.health
      ∧ (game_loop_alien_pass_go fuel st i).player.health ≤ 100 := by
  intro fuel
  induction fuel with
  | zero =>
    intro st i _ h0 h100
    exact ⟨h0, h100⟩
  | succ fuel ih =>
    intro st i hd h0 h100
    simp only [game_loop_alien_pass_go]
    split
    case isTrue h =>
      obtain ⟨hd2, h02, h1002⟩ := alien_body_invariant st i h hd h0 h100
      split
      · exact ⟨h02, h1002⟩
      · exact ih _ _ hd2 h02 h1002
    case isFalse => exact ⟨h0, h100⟩

/-- The heart branch keeps the player's health inside `[0, 100]`. -/
theorem heart_step_invariant (st : FrameState)
    (hr : 0 ≤ st.heart.restore_amount)
    (h0 : 0 ≤ st.player.health) (h100 : st.player.health ≤ 100) :
    0 ≤ (game_loop_heart_step st).player.health
    ∧ (game_loop_heart_step st).player.health ≤ 100 := by
  unfold game_loop_heart_step
  split
  · split
    · dsimp only
      split
      · refine ⟨?_, healHealth_le _ _⟩
        refine healHealth_nonneg _ _ h0 ?_
        rw [Heart.move_restore_amount]
        exact hr
      · exact ⟨h0, h100⟩
    · exact ⟨h0, h100⟩
  · exact ⟨h0, h100⟩

/-- C2: with every alien bullet's damage nonnegative and the heart's
restore amount nonnegative — as in all states the game constructs — a full
alien pass and the heart branch keep `player.health` inside `[0, 100]`
(the game starts it at 100); a damage application never drives it below 0
(health 5 struck by damage 10 yields exactly 0, and the game-over
transition writes exactly 0), and a heart claim never raises it above
100. -/
theorem C2_player_health_invariant :
    (∀ (st : FrameState) (i : Nat),
      (∀ a ∈ st.aliens, 0 ≤ a.bullet.damage) →
      0 ≤ st.player.health → st.player.health ≤ 100 →
      0 ≤ (game_loop_alien_pass st i).player.health
      ∧ (game_loop_alien_pass st i).player.health ≤ 100)
    ∧ (∀ st : FrameState, 0 ≤ st.heart.restore_amount →
      0 ≤ st.player.health → st.player.health ≤ 100 →
      0 ≤ (game_loop_heart_step st).player.health
      ∧ (game_loop_heart_step st).player.health ≤ 100)
    ∧ damageHealth 5 10 = 0
    ∧ (∀ h d : Int, 0 ≤ damageHealth h d)
    ∧ (∀ h r : Int, healHealth h r ≤ 100) := by
  refine ⟨?_, heart_step_invariant, by decide, damageHealth_nonneg, healHealth_le⟩
  intro st i hd h0 h100
  exact alien_pass_go_invariant (st.aliens.length - i) st i hd h0 h100

/-- C2 witness: the invariant at a concrete one-alien frame and at a
concrete heart step. -/
theorem C2_player_health_invariant_witness :
    (0 ≤ (game_loop_alien_pass sampleStateHigh 0).player.health
      ∧ (game_loop_alien_pass sampleStateHigh 0).player.health ≤ 100)
    ∧ (0 ≤ (game_loop_heart_step sampleStateEmpty).player.health
      ∧ (game_loop_heart_step sampleStateEmpty).player.health ≤ 100) := by
  constructor
  · exact C2_player_health_invariant.1 sampleStateHigh 0
      (by
        intro a ha
        simp only [sampleStateHigh, List.mem_singleton] at ha
        subst ha
        norm_num [sampleAlienHigh])
      (by norm_num [sampleStateHigh, samplePlayer])
      (by norm_num [sampleStateHigh, samplePlayer])
  · exact C2_player_health_invariant.2.1 sampleStateEmpty
      (by norm_num [sampleStateEmpty, get_heart])
      (by norm_num [sampleStateEmpty, samplePlayer])
      (by norm_num [sampleStateEmpty, samplePlayer])

/-- C6: the kill update increments score by exactly 1 and increments level
by exactly 1 iff the new score is a multiple of 25 (24 kills then one more
give score 25 and one level increment; 50 kills give a second); during
play, score and level change nowhere else: the heart branch never touches
them, and an alien-loop iteration either leaves both unchanged or applies
exactly the kill update. -/
theorem C6_score_level_updates :
    (∀ score level : Int, (killScoreLevel score level).1 = score + 1
      ∧ ((killScoreLevel score level).2 = level + 1 ↔ (score + 1) % 25 = 0)
      ∧ (¬ (score + 1) % 25 = 0 → (killScoreLevel score level).2 = level))
    ∧ killScoreLevel 24 1 = (25, 2)
    ∧ (List.replicate 25 ()).foldl (fun p _ => killScoreLevel p.1 p.2) ((0 : Int), (1 : Int))
        = (25, 2)
    ∧ (List.replicate 50 ()).foldl (fun p _ => killScoreLevel p.1 p.2) ((0 : Int), (1 : Int))
        = (50, 3)
    ∧ (∀ st : FrameState, (game_loop_heart_step st).score = st.score
        ∧ (game_loop_heart_step st).level = st.level)
    ∧ (∀ (p a : Spaceship) (s l : Int),
        ((alien_interactions p a s l).2.2.1 = s ∧ (alien_interactions p a s l).2.2.2 = l)
        ∨ ((alien_interactions p a s l).2.2.1 = (killScoreLevel s l).1
            ∧ (alien_interactions p a s l).2.2.2 = (killScoreLevel s l).2))
    ∧ (∀ (st : FrameState) (i : Nat) (h : i < st.aliens.length),
        ((game_loop_alien_body st i h).1.score = st.score
          ∧ (game_loop_alien_body st i h).1.level = st.level)
        ∨ ((game_loop_alien_body st i h).1.score = (killScoreLevel st.score st.level).1
          ∧ (game_loop_alien_body st i h).1.level = (killScoreLevel st.score st.level).2)) := by
  refine ⟨?_, by decide, by decide, by decide, ?_, alien_interactions_score_level, ?_⟩
  · intro score level
    refine ⟨rfl, ?_, ?_⟩
    · dsimp only [killScoreLevel]
      split_ifs with hm
      · simp [hm]
      · simp [hm]
    · intro hm
      dsimp only [killScoreLevel]
      rw [if_neg hm]
  · intro st
    unfold game_loop_heart_step
    split
    · split
      · dsimp only
        split
        · exact ⟨rfl, rfl⟩
        · exact ⟨rfl, rfl⟩
      · exact ⟨rfl, rfl⟩
    · exact ⟨rfl, rfl⟩
  · intro st i h
    by_cases c1 : (st.aliens.get ⟨i, h⟩).is_killed = true
    · have hb : game_loop_alien_body st i h = (st, false) := by
        unfold game_loop_alien_body
        rw [if_pos c1]
      rw [hb]
      left
      exact ⟨rfl, rfl⟩
    · by_cases c2 : ((st.aliens.get ⟨i, h⟩).move 1 SCREEN_W SCREEN_H).is_killed = true
      · have hb : game_loop_alien_body st i h =
            ({ st with
                aliens := st.aliens.set i ((st.aliens.get ⟨i, h⟩).move 1 SCREEN_W SCREEN_H),
                is_game_over := true,
                game_over_text := "ALIENS REACHED YOU",
                player := { st.player with health := 0 } }, true) := by
          unfold game_loop_alien_body
          rw [if_neg c1, if_pos c2]
        rw [hb]
        left
        exact ⟨rfl, rfl⟩
      · have hb : game_loop_alien_body st i h =
            (let res := alien_interactions st.player
                ((st.aliens.get ⟨i, h⟩).move 1 SCREEN_W SCREEN_H) st.score st.level
             let aliens := if res.1.is_killed then st.aliens.eraseIdx i
               else st.aliens.set i res.1
             let st2 : FrameState := { st with
                           aliens := aliens, player := res.2.1,
                           score := res.2.2.1, level := res.2.2.2 }
             if st2.player.health ≤ 0 then
               ({ st2 with is_game_over := true }, true)
             else
               (st2, false)) := by
          unfold game_loop_alien_body
          rw [if_neg c1, if_neg c2]
        rw [hb]
        dsimp only
        generalize hres : alien_interactions st.player
          ((st.aliens.get ⟨i, h⟩).move 1 SCREEN_W SCREEN_H) st.score st.level = res
        have hsl : (res.2.2.1 = st.score ∧ res.2.2.2 = st.level)
            ∨ (res.2.2.1 = (killScoreLevel st.score st.level).1
              ∧ res.2.2.2 = (killScoreLevel st.score st.level).2) := by
          rw [← hres]
          exact alien_interactions_score_level _ _ _ _
        rcases hsl with ⟨hs, hl⟩ | ⟨hs, hl⟩
        · left
          constructor
          · split <;> exact hs
          · split <;> exact hl
        · right
          constructor
          · split <;> exact hs
          · split <;> exact hl

/-- C6 witness: the alien-iteration dichotomy at a concrete one-alien
frame. -/
theorem C6_score_level_updates_witness :
    ((game_loop_alien_body sampleStateHigh 0 (by norm_num [sampleStateHigh])).1.score
        = sampleStateHigh.score
      ∧ (game_loop_alien_body sampleStateHigh 0 (by norm_num [sampleStateHigh])).1.level
        = sampleStateHigh.level)
    ∨ ((game_loop_alien_body sampleStateHigh 0 (by norm_num [sampleStateHigh])).1.score
        = (killScoreLevel sampleStateHigh.score sampleStateHigh.level).1
      ∧ (game_loop_alien_body sampleStateHigh 0 (by norm_num [sampleStateHigh])).1.level
        = (killScoreLevel sampleStateHigh.score sampleStateHigh.level).2) :=
  C6_score_level_updates.2.2.2.2.2.2 sampleStateHigh 0 (by norm_num [sampleStateHigh])
